import Mathlib

/-!
Shallow embedding of the SmartPredictor orchestrator of this repository
(src/shapash/explainer/smart_predictor.py) together with the helper
operations it calls.  Helpers that live in modules outside the given
sources (shapash.manipulation.filters, shapash.manipulation.mask,
shapash.manipulation.summarize, shapash.decomposition.contributions,
shapash.manipulation.select_lines, shapash.utils.transform,
shapash.utils.model, shapash.explainer.smart_state) are modelled from the
specification; their doc comments say so explicitly.  Python exceptions
are modelled with Except, the mutable attributes of the predictor object
with an explicit record threaded through every method, and the dict
stored in self.data with an association list so that KeyError behaviour
is derived rather than assumed.
-/

deriving instance DecidableEq for Except

namespace Shapash

/-- Error taxonomy.  The source raises ValueError, KeyError and
AssertionError; the specification groups the raised failures into
OrderError, ConfigError, ShapeMismatch, TypeMismatch and
ReconciliationError classes.  Constructors are named by that role; the
carried string is the message of the underlying Python exception. -/
inductive Err where
  | orderError (msg : String)
  | configError (msg : String)
  | shapeMismatch (msg : String)
  | typeMismatch (msg : String)
  | reconciliationError (key : String)
  | keyError (key : String)
  | attributeError (name : String)
  | assertionError (msg : String)
  | valueError (msg : String)
deriving DecidableEq

/-- A pandas style dataframe: named columns with a runtime dtype string
per column, and rows of rational cells.  Row index keys are not
modelled; rows align positionally. -/
structure DF where
  cols : List String
  dtypes : List String
  rows : List (List ℚ)
deriving DecidableEq

/-- Elementwise negation of a table, used by the opposite class framing
of the contribution adaptation. -/
def dfNeg (d : DF) : DF :=
  { d with rows := d.rows.map (fun r => r.map (fun v => -v)) }

/-- Column selection x[names] in pandas: KeyError when a requested
column is absent, otherwise the columns are returned in the requested
order. -/
def DF.select (d : DF) (names : List String) : Except Err DF := do
  let idxs ← names.mapM (fun n =>
    match d.cols.findIdx? (fun c => decide (c = n)) with
    | some i => Except.ok i
    | none => Except.error (Err.keyError n))
  Except.ok
    { cols := names
      dtypes := idxs.map (fun i => d.dtypes.getD i "")
      rows := d.rows.map (fun r => idxs.map (fun i => r.getD i 0)) }

/-- The per rank summary table produced by summarize: up to width
triplets (feature label, feature value, contribution) per row, padded
with null cells.  Cells can hold labels, so this is a separate table
type from DF. -/
structure SummaryTable where
  width : Nat
  rows : List (List (Option String × Option ℚ × Option ℚ))
deriving DecidableEq

/-- A value stored in the self.data dict of the predictor: Python None,
a dataframe, a list of dataframes, or the summary table. -/
inductive DVal where
  | none
  | df (d : DF)
  | dfs (l : List DF)
  | stab (t : SummaryTable)
deriving DecidableEq

/-- The self.data attribute is a Python dict with string keys. -/
abbrev Dict := List (String × DVal)

/-- Python dict lookup: KeyError when the key is absent. -/
def dictGet : Dict → String → Except Err DVal
  | [], k => .error (.keyError k)
  | (k0, v) :: rest, k => if k = k0 then .ok v else dictGet rest k

/-- Python dict assignment: replace the binding when the key is present,
append it otherwise. -/
def dictSet : Dict → String → DVal → Dict
  | [], k, v => [(k, v)]
  | (k0, v0) :: rest, k, v =>
      if k = k0 then (k0, v) :: rest else (k0, v0) :: dictSet rest k v

/-- Contribution input: one table (regression framing) or one table per
class (classification framing). -/
inductive Contribs where
  | single (d : DF)
  | multi (l : List DF)
deriving DecidableEq

/-- Which implementation choose_state selected: SmartState for a single
table, MultiDecorator SmartState for a list of tables. -/
inductive StateKind where
  | single
  | multi
deriving DecidableEq

/-- The ranked output stored in self.summary by summarize:
contributions per row in decreasing magnitude order, the feature values
reordered the same way, and the per row, per rank lookup of the original
feature index. -/
structure RankedS where
  contrib_sorted : DF
  x_sorted : DF
  var_dict : List (List Nat)
deriving DecidableEq

/-- A boolean keep mask aligned to the ranked contribution table. -/
abbrev Mask := List (List Bool)

/-- The mask_params configuration: four optional filters, None meaning
the filter is disabled.  The source stores them in a dict with exactly
these keys (validated by check_mask_params); a record with one field
per key models it. -/
structure MaskParams where
  features_to_hide : Option (List String)
  threshold : Option ℚ
  positive : Option Bool
  max_contrib : Option Nat
deriving DecidableEq

/-- The mutable attributes of a SmartPredictor instance that the
modelled methods read or write.  Option models attribute absence, i.e.
hasattr(self, name) being False before the first assignment. -/
structure PState where
  dataD : Option Dict
  mask_params : MaskParams
  stateKind : Option StateKind
  summaryS : Option RankedS
  maskM : Option Mask
  masked_contributions : Option (List ℚ)
deriving DecidableEq

/-- The immutable configuration fixed at construction time.  The model,
the explainer and the preprocessing transform are the black box
collaborators of the spec, carried as functions; the transform reports
its internal failure as a plain String, a type deliberately distinct
from the Err taxonomy of the predictor. -/
structure Config where
  case_ : String
  classes : List ℚ
  columns_dict : List (Nat × String)
  features_types : List (String × String)
  features_dict : List (String × String)
  label_dict : List (ℚ × String)
  preprocess : Option (DF → Except String DF)
  invMapping : List (String × List String)
  modelPredict : DF → List ℚ
  modelProba : DF → List (List ℚ)
  explainerCompute : DF → Contribs

/- ### Message constants (texts of the ValueError messages in the source,
with apostrophes dropped) -/

def msgAddInputFirst : String := "add_input method must be called at least once."

def msgSummarizeOrder : String :=
  "You have to specify dataset x and y_pred arguments. Please use add_input method."

def msgXDetail : String :=
  "x must be specified in an add_input method to apply detail_contributions."

def msgXPredict : String := "x must be specified in an add_input method to apply predict."

def msgPreprocFail : String :=
  "Preprocessing has failed. The preprocessing specified or the dataset does not match."

def msgNoDataset : String := "No dataset x specified."

def msgCheckContrib : String :=
  "Prediction set and contributions should have exactly the same number of lines and number of columns."

def msgBadTypes : String :=
  "Types of features in x does not match with the expected one in features_types."

def msgIntKeys : String := "columns_dict must have only integers keys for features order."

/- ### check_dataset_features (source lines 261-281) -/

/-- A Python generator object is always truthy.  The source guards its
columns_dict key check and its dtype check with if not (e for y in ys),
testing the truthiness of the generator object itself, so both
conditions are constantly False and neither ValueError can ever be
raised. -/
def genexpTruthy : Bool := true

/-- SmartPredictor.check_dataset_features: assert that every column of x
is declared in columns_dict, reorder x into the canonical order given by
the contiguous integer keys of columns_dict, assert that every column is
declared in features_types, and run the (dead, see genexpTruthy) dtype
check. -/
def check_dataset_features (cfg : Config) (x : DF) : Except Err DF := do
  if ¬ (x.cols.all (fun c => (cfg.columns_dict.map Prod.snd).contains c)) then
    throw (Err.assertionError "columns of x must be declared in columns_dict")
  if ¬ genexpTruthy then
    throw (Err.valueError msgIntKeys)
  match cfg.columns_dict.map Prod.fst with
  | [] => throw (Err.valueError "min arg is an empty sequence")
  | k :: ks =>
    let lo := ks.foldl Nat.min k
    let hi := ks.foldl Nat.max k
    let order ← (List.range' lo (hi + 1 - lo)).mapM (fun i =>
      match List.lookup i cfg.columns_dict with
      | some n => Except.ok n
      | none => Except.error (Err.keyError (toString i)))
    let x2 ← x.select order
    if ¬ (x2.cols.all (fun c => (cfg.features_types.map Prod.fst).contains c)) then
      throw (Err.assertionError "columns of x must be declared in features_types")
    if ¬ genexpTruthy then
      throw (Err.valueError msgBadTypes)
    return x2

/- ### clean_data (source lines 362-379) -/

/-- SmartPredictor.clean_data: the freshly cleared bundle stored when a
new x is supplied. -/
def clean_data (x : DF) : Dict :=
  [("x", DVal.df x), ("ypred", DVal.none),
   ("contributions", DVal.none), ("x_preprocessed", DVal.none)]

/- ### spec modelled helper operations -/

/-- Modelled from the spec: shapash.utils.transform.apply_preprocessing
is not part of the given sources.  Spec section 6: the preprocessing
transform is a black box transform(x) mapping a raw dataframe to the
preprocessed one, optional, absence meaning identity.  Its own failure
is an internal error of type String. -/
def apply_preprocessing (cfg : Config) (x : DF) : Except String DF :=
  match cfg.preprocess with
  | none => .ok x
  | some t => t x

/-- Modelled from the spec: shapash.utils.check.check_ypred is not part
of the given sources.  Spec section 3: the prediction must share its row
key set with x; a length mismatch is a ShapeMismatch failure. -/
def check_ypred_h (xv : DVal) (yp : DF) : Except Err DF :=
  match xv with
  | .df xd =>
      if yp.rows.length = xd.rows.length then .ok yp
      else .error (.shapeMismatch "x and ypred must have the same index")
  | _ => .error (.typeMismatch "x entry is not a dataframe")

/-- Modelled from the spec: shapash.utils.transform.adapt_contributions
is not part of the given sources.  Spec section 4.1: if the case is
classification and the input is a single table, convert it to the two
element sequence of the negated table and the table; any other input
passes through unchanged. -/
def adapt_contributions (case_ : String) (c : Contribs) : Contribs :=
  match c with
  | .single d => if case_ = "classification" then .multi [dfNeg d, d] else .single d
  | .multi l => .multi l

/-- SmartPredictor.choose_state: a list input selects the per class
implementation, anything else the single table one. -/
def choose_state (c : Contribs) : StateKind :=
  match c with
  | .multi _ => .multi
  | .single _ => .single

/-- Modelled from the spec: shapash.utils.check.check_contribution_object
is not part of the given sources.  Spec section 4.1: in classification a
sequence must have one table per declared class, else ShapeMismatch; in
regression the input must be a single table, else TypeMismatch. -/
def check_contribution_object (case_ : String) (classes : List ℚ) (c : Contribs) :
    Except Err Unit :=
  if case_ = "regression" then
    match c with
    | .single _ => .ok ()
    | .multi _ => .error (.typeMismatch "regression expects a single contribution table")
  else
    match c with
    | .multi l =>
        if l.length = classes.length then .ok ()
        else .error (.shapeMismatch "contribution list length must equal the number of classes")
    | .single _ => .error (.typeMismatch "classification expects a list of contribution tables")

/-- Modelled from the spec: SmartState.validate_contributions (module
explainer.smart_state is not part of the given sources).  Spec section
4.1: inputs are relabelled with the labels of the preprocessed feature
table; the shape must align with the table being explained. -/
def validate_table (xp d : DF) : Except Err DF :=
  if d.rows.length == xp.rows.length && d.rows.all (fun r => r.length == xp.cols.length) then
    .ok { cols := xp.cols, dtypes := xp.dtypes, rows := d.rows }
  else .error (.shapeMismatch "contributions shape does not align with x_preprocessed")

/-- Dispatch of validate_table over the single table or per class list,
per the State Strategy of spec section 4.2. -/
def validate_contributions_v (xpv : DVal) (c : Contribs) : Except Err Contribs :=
  match xpv with
  | .df xp =>
      match c with
      | .single d => (validate_table xp d).map Contribs.single
      | .multi l => (l.mapM (validate_table xp)).map Contribs.multi
  | _ => .error (.typeMismatch "x_preprocessed is not a dataframe")

/-- Modelled from the spec: SmartState.inverse_transform_contributions
(module explainer.smart_state is not part of the given sources).  Spec
section 4.3: the reconciled contribution of each original feature is the
sum of the contributions of every encoded feature it expanded into; an
encoded feature absent from the table is a ReconciliationError. -/
def inverse_transform_table (cfg : Config) (d : DF) : Except Err DF := do
  let rows ← d.rows.mapM (fun r =>
    cfg.invMapping.mapM (fun om =>
      om.2.foldlM (fun acc enc =>
        match d.cols.findIdx? (fun c => decide (c = enc)) with
        | some j => Except.ok (acc + r.getD j 0)
        | none => Except.error (Err.reconciliationError enc)) (0 : ℚ)))
  pure { cols := cfg.invMapping.map Prod.fst
         dtypes := cfg.invMapping.map (fun _ => "float")
         rows := rows }

/-- SmartPredictor.apply_preprocessing_for_contributions (source lines
464-486): inverse transform when a preprocessing is configured, identity
otherwise. -/
def apply_preprocessing_for_contributions (cfg : Config) (c : Contribs) :
    Except Err Contribs :=
  if cfg.preprocess.isSome then
    match c with
    | .single d => (inverse_transform_table cfg d).map Contribs.single
    | .multi l => (l.mapM (inverse_transform_table cfg)).map Contribs.multi
  else .ok c

/-- Shape comparison used by check_contributions: same number of lines
and columns as the dataset x. -/
def table_matches (x d : DF) : Bool :=
  d.rows.length == x.rows.length && d.rows.all (fun r => r.length == x.cols.length)

/-- Modelled from the spec: SmartState.check_contributions (module
explainer.smart_state is not part of the given sources); dispatches the
shape comparison over the single table or per class list. -/
def check_contributions_ok (x : DF) (c : Contribs) : Bool :=
  match c with
  | .single d => table_matches x d
  | .multi l => l.all (table_matches x)

/-- Modelled from the spec: shapash.utils.model.predict_proba is not
part of the given sources.  Spec section 6: classification models expose
predict_proba giving a per class probability table. -/
def predict_proba_df (cfg : Config) (xp : DF) : DF :=
  { cols := (List.range cfg.classes.length).map toString
    dtypes := (List.range cfg.classes.length).map (fun _ => "float")
    rows := cfg.modelProba xp }

/-- Modelled from the spec:
shapash.manipulation.select_lines.keep_right_contributions is not part
of the given sources.  Spec sections 3 and 4.2: classification
recombines the per class tables by selecting, for each row, the table
matching that rows predicted class and pairs the prediction with the
matched class probability; regression passes the prediction and the
single table through. -/
def keep_right_contributions (cfg : Config) (ypv : DVal) (c : Contribs)
    (proba : Option DF) : Except Err (DVal × DVal) :=
  if cfg.case_ = "classification" then
    match ypv, c with
    | .df ypd, .multi l => do
        let idxs ← ypd.rows.mapM (fun r =>
          match cfg.classes.findIdx? (fun v => decide (v = r.getD 0 0)) with
          | some j => Except.ok j
          | none => Except.error (Err.valueError "predicted class not among declared classes"))
        let selRows ← (idxs.zip (List.range idxs.length)).mapM (fun ji =>
          match l[ji.1]? with
          | some tbl => Except.ok (tbl.rows.getD ji.2 [])
          | none => Except.error (Err.shapeMismatch "missing class contribution table"))
        let cols := (l.headD (DF.mk [] [] [])).cols
        let dts := (l.headD (DF.mk [] [] [])).dtypes
        let probRows :=
          match proba with
          | some pdf => (idxs.zip (List.range idxs.length)).map (fun ji =>
              (pdf.rows.getD ji.2 []).getD ji.1 0)
          | none => idxs.map (fun _ => (0 : ℚ))
        let ypOut : DF :=
          { cols := ypd.cols ++ ["proba"]
            dtypes := ypd.dtypes ++ ["float"]
            rows := (ypd.rows.zip probRows).map (fun rp => rp.1 ++ [rp.2]) }
        pure (DVal.df ypOut, DVal.df { cols := cols, dtypes := dts, rows := selRows })
    | _, _ => .error (.typeMismatch "classification expects a prediction table and per class contributions")
  else
    match c with
    | .single d => .ok (ypv, .df d)
    | .multi _ => .error (.typeMismatch "regression expects a single contribution table")

/- ### Ranker (modelled from the spec, decomposition.contributions is not
part of the given sources) -/

/-- Absolute value on the rationals, written so that it reduces inside
the kernel. -/
def absQ (q : ℚ) : ℚ := if q < 0 then -q else q

/-- Stable insertion of a column index into a list of indices ordered by
decreasing absolute contribution: the new index moves past every earlier
index whose magnitude is at least its own, so ties resolve to original
column order. -/
def insertRank (c : List ℚ) (i : Nat) : List Nat → List Nat
  | [] => [i]
  | j :: rest =>
      if absQ (c.getD i 0) ≤ absQ (c.getD j 0) then j :: insertRank c i rest
      else i :: j :: rest

/-- Ranking of one row: column indices sorted by decreasing absolute
contribution, ties broken by original column order. -/
def rankRow (c : List ℚ) : List Nat :=
  (List.range c.length).foldl (fun acc i => insertRank c i acc) []

/-- Modelled from the spec: rank_contributions and assign_contributions
(module decomposition.contributions is not part of the given sources).
Spec section 4.4: per row, the contributions sorted by decreasing
magnitude, the feature values reordered the same way, and the per rank
lookup of the original feature index. -/
def rank_contributions (cv xpv : DVal) : Except Err RankedS :=
  match cv, xpv with
  | .df c, .df xp =>
      let vd := c.rows.map rankRow
      let cs := (c.rows.zip vd).map (fun rv => rv.2.map (fun i => rv.1.getD i 0))
      let xs := (xp.rows.zip vd).map (fun rv => rv.2.map (fun i => rv.1.getD i 0))
      .ok { contrib_sorted :=
              { cols := (List.range c.cols.length).map (fun k => "contribution_" ++ toString k)
                dtypes := c.cols.map (fun _ => "float")
                rows := cs }
            x_sorted :=
              { cols := (List.range xp.cols.length).map (fun k => "feature_" ++ toString k)
                dtypes := xp.cols.map (fun _ => "float")
                rows := xs }
            var_dict := vd }
  | _, _ => .error (.typeMismatch "contributions and x_preprocessed must be dataframes")

/- ### Mask engine (modelled from the spec, manipulation.filters and
manipulation.mask are not part of the given sources) -/

/-- Modelled from the spec: manipulation.mask.init_mask, the always True
base mask of the same shape as the ranked contribution table. -/
def init_mask (d : DF) : Mask :=
  d.rows.map (fun r => r.map (fun _ => true))

/-- Modelled from the spec: manipulation.filters.sign_contributions,
keeping strictly positive contributions when positive is True and
strictly negative ones when it is False. -/
def sign_contributions (d : DF) (positive : Bool) : Mask :=
  d.rows.map (fun r => r.map (fun v =>
    if positive then decide (0 < v) else decide (v < 0)))

/-- Modelled from the spec: manipulation.filters.cap_contributions keeps
the positions whose absolute contribution is at least the threshold
(boundary included).  The SmartPredictor source fetches its argument
from self.data, so the argument here is a DVal; a value that is not a
table fails as a type error, mirroring the failure the helper would
raise. -/
def cap_contributions (v : DVal) (t : ℚ) : Except Err Mask :=
  match v with
  | .df d => .ok (d.rows.map (fun r => r.map (fun c => decide (t ≤ absQ c))))
  | _ => .error (.typeMismatch "cap_contributions expects a dataframe")

/-- Modelled from the spec: manipulation.filters.hide_contributions is
False exactly where the feature identifier of the rank is in the hide
list.  The SmartPredictor source fetches the ranked feature lookup from
self.data, which never stores a var_dict entry (see clean_data and the
writers in add_input and summarize), so within this development the
argument can only be a DVal, never the ranked feature lookup the helper
expects, and the call fails as a type error. -/
def hide_contributions (v : DVal) (features_list : List String) : Except Err Mask :=
  match v, features_list with
  | _, _ => .error (.typeMismatch "hide_contributions expects the ranked feature lookup")

/-- Elementwise AND of two masks. -/
def andMask (a b : Mask) : Mask :=
  (a.zip b).map (fun rr => (rr.1.zip rr.2).map (fun p => p.1 && p.2))

/-- Modelled from the spec: manipulation.filters.combine_masks is the
elementwise AND across all masks of the list. -/
def combine_masks (ms : List Mask) : Mask :=
  match ms with
  | [] => []
  | m :: rest => rest.foldl andMask m

/-- One row of the top k cutoff: among currently kept positions, in rank
order, keep only the first k and force the rest to False. -/
def cutoffRow : Nat → List Bool → List Bool
  | _, [] => []
  | k, b :: rest =>
      if b then decide (0 < k) :: cutoffRow (k - 1) rest
      else false :: cutoffRow k rest

/-- Modelled from the spec: manipulation.filters.cutoff_contributions
applies the top k cutoff row by row. -/
def cutoff_contributions (m : Mask) (k : Nat) : Mask :=
  m.map (cutoffRow k)

/-- Modelled from the spec: manipulation.mask.compute_masked_contributions
sums, per row, the contributions hidden by the mask. -/
def compute_masked_contributions (d : DF) (m : Mask) : List ℚ :=
  (d.rows.zip m).map (fun rm =>
    ((rm.1.zip rm.2).filter (fun p => !p.2)).foldl (fun a p => a + p.1) 0)

/- ### Summarizer (modelled from the spec, manipulation.summarize is not
part of the given sources) -/

/-- Feature label of a ranked feature index: technical name through
columns_dict, then domain label through features_dict with the technical
name as fallback. -/
def featLabel (cd : List (Nat × String)) (fd : List (String × String)) (i : Nat) : String :=
  let tech := (List.lookup i cd).getD ""
  (List.lookup tech fd).getD tech

/-- Kept triplets of one row, in rank order. -/
def keptRow (cd : List (Nat × String)) (fd : List (String × String))
    (crow : List ℚ) (vrow : List Nat) (xrow : List ℚ) (mrow : List Bool) :
    List (Option String × Option ℚ × Option ℚ) :=
  ((vrow.zip (xrow.zip crow)).zip mrow).filterMap (fun e =>
    if e.2 then some (some (featLabel cd fd e.1.1), some e.1.2.1, some e.1.2.2) else none)

/-- Modelled from the spec: manipulation.summarize.summarize (the module
is not part of the given sources).  Spec section 4.6: per row, up to k
triplets (feature label, value, contribution) drawn from the ranks where
the mask is True, in rank order, padded with nulls. -/
def summarizeT (contrib_sorted : DF) (var_dict : List (List Nat)) (x_sorted : DF)
    (mask : Mask) (cd : List (Nat × String)) (fd : List (String × String)) :
    SummaryTable :=
  let kept := ((var_dict.zip (x_sorted.rows.zip contrib_sorted.rows)).zip mask).map
    (fun e => keptRow cd fd e.1.2.2 e.1.1 e.1.2.1 e.2)
  let w := kept.foldl (fun a r => Nat.max a r.length) 0
  { width := w
    rows := kept.map (fun r => r ++ List.replicate (w - r.length) (none, none, none)) }

/- ### The predictor methods (source lines 157-635) -/

/-- Core of SmartPredictor.predict (source lines 610-635), acting on the
self.data dict: fail when the attribute is absent, fail when
x_preprocessed is None, otherwise store the model prediction as a one
column ypred dataframe.  The model collaborator always exposes predict
here, so the final hasattr guard of the source never fires. -/
def predictCore (cfg : Config) (d0 : Option Dict) : Option Dict × Except Err DVal :=
  match d0 with
  | none => (none, .error (.orderError msgAddInputFirst))
  | some d =>
      match dictGet d "x_preprocessed" with
      | .error e => (some d, .error e)
      | .ok xpv =>
          if xpv = DVal.none then (some d, .error (.valueError msgXPredict))
          else
            match xpv with
            | .df xpd =>
                let yp : DF :=
                  { cols := ["ypred"], dtypes := ["float"]
                    rows := (cfg.modelPredict xpd).map (fun v => [v]) }
                (some (dictSet d "ypred" (.df yp)), .ok (.df yp))
            | _ => (some d, .error (.typeMismatch "x_preprocessed is not a dataframe"))

/-- Core of SmartPredictor.compute_contributions (source lines 398-442),
acting on the self.data dict and the self.state attribute.  Returns the
dict after any mutation done by the auto invoked predict, the state
strategy attribute after any assignment by choose_state, and the pair
(y_pred, match_contrib) or the raised failure. -/
def ccCore (cfg : Config) (d0 : Option Dict) (sk0 : Option StateKind)
    (copt : Option Contribs) :
    Option Dict × Option StateKind × Except Err (DVal × DVal) :=
  match d0 with
  | none => (none, sk0, .error (.orderError msgAddInputFirst))
  | some d =>
  match dictGet d "x" with
  | .error e => (some d, sk0, .error e)
  | .ok xv =>
  if xv = DVal.none then (some d, sk0, .error (.valueError msgXDetail))
  else
  match dictGet d "ypred" with
  | .error e => (some d, sk0, .error e)
  | .ok ypv0 =>
  let pstep : Option Dict × Except Err Unit :=
    if ypv0 = DVal.none then
      let pr := predictCore cfg (some d)
      (pr.1, pr.2.map (fun _ => ()))
    else (some d, .ok ())
  match pstep.2 with
  | .error e => (pstep.1, sk0, .error e)
  | .ok _ =>
  match pstep.1 with
  | none => (none, sk0, .error (.attributeError "data"))
  | some d1 =>
  let contribE : Except Err Contribs :=
    match copt with
    | some c => .ok c
    | none =>
        match dictGet d1 "x_preprocessed" with
        | .error e => .error e
        | .ok (.df xp) => .ok (cfg.explainerCompute xp)
        | .ok _ => .error (.typeMismatch "x_preprocessed is not a dataframe")
  match contribE with
  | .error e => (some d1, sk0, .error e)
  | .ok contrib =>
  let adapt := adapt_contributions cfg.case_ contrib
  let sk1 : Option StateKind := some (choose_state adapt)
  match check_contribution_object cfg.case_ cfg.classes adapt with
  | .error e => (some d1, sk1, .error e)
  | .ok _ =>
  match dictGet d1 "x_preprocessed" with
  | .error e => (some d1, sk1, .error e)
  | .ok xpv =>
  match validate_contributions_v xpv adapt with
  | .error e => (some d1, sk1, .error e)
  | .ok vc =>
  match apply_preprocessing_for_contributions cfg vc with
  | .error e => (some d1, sk1, .error e)
  | .ok rc =>
  match dictGet d1 "x" with
  | .error e => (some d1, sk1, .error e)
  | .ok (.df xd) =>
      if check_contributions_ok xd rc then
        let probaE : Except Err (Option DF) :=
          if cfg.case_ = "classification" then
            match dictGet d1 "x_preprocessed" with
            | .ok (.df xp) => .ok (some (predict_proba_df cfg xp))
            | .ok _ => .error (.typeMismatch "x_preprocessed is not a dataframe")
            | .error e => .error e
          else .ok none
        match probaE with
        | .error e => (some d1, sk1, .error e)
        | .ok proba =>
            match dictGet d1 "ypred" with
            | .error e => (some d1, sk1, .error e)
            | .ok ypv1 =>
                match keep_right_contributions cfg ypv1 rc proba with
                | .error e => (some d1, sk1, .error e)
                | .ok res => (some d1, sk1, .ok res)
      else (some d1, sk1, .error (.valueError msgCheckContrib))
  | .ok _ => (some d1, sk1, .error (.typeMismatch "x entry is not a dataframe"))

/-- SmartPredictor.compute_contributions as a method on the predictor
state. -/
def compute_contributions (cfg : Config) (s : PState) (copt : Option Contribs) :
    PState × Except Err (DVal × DVal) :=
  let r := ccCore cfg s.dataD s.stateKind copt
  ({ s with dataD := r.1, stateKind := r.2.1 }, r.2.2)

/-- SmartPredictor.predict as a method on the predictor state. -/
def predict (cfg : Config) (s : PState) : PState × Except Err DVal :=
  let r := predictCore cfg s.dataD
  ({ s with dataD := r.1 }, r.2)

/-- SmartPredictor.detail_contributions (source lines 444-462): the
concatenation of y_pred and the matched contributions is modelled as the
returned pair. -/
def detail_contributions (cfg : Config) (s : PState) (copt : Option Contribs) :
    PState × Except Err (DVal × DVal) :=
  let r := compute_contributions cfg s copt
  (r.1, r.2)

/-- Core of SmartPredictor.add_input (source lines 157-203).  With a new
x: validate and reorder it, overwrite self.data with the cleared bundle,
then run the preprocessing inside the try block, translating any failure
of the transform into the single descriptive ConfigError; without an x,
require the data attribute to exist.  Then an explicit ypred is checked
and stored, and compute_contributions fills the ypred and contributions
entries.  Mutations performed before a raise persist, exactly as in the
Python source. -/
def aiCore (cfg : Config) (d0 : Option Dict) (sk0 : Option StateKind)
    (x : Option DF) (yp : Option DF) (copt : Option Contribs) :
    Option Dict × Option StateKind × Except Err Unit :=
  let step1 : Option Dict × Except Err Unit :=
    match x with
    | some xraw =>
        match check_dataset_features cfg xraw with
        | .error e => (d0, .error e)
        | .ok x2 =>
            let d1 := clean_data x2
            match apply_preprocessing cfg x2 with
            | .ok xp => (some (dictSet d1 "x_preprocessed" (.df xp)), .ok ())
            | .error _ => (some d1, .error (.configError msgPreprocFail))
    | none =>
        match d0 with
        | none => (none, .error (.valueError msgNoDataset))
        | some d => (some d, .ok ())
  match step1.2 with
  | .error e => (step1.1, sk0, .error e)
  | .ok _ =>
  match step1.1 with
  | none => (none, sk0, .error (.attributeError "data"))
  | some d1 =>
  let step2 : Dict × Except Err Unit :=
    match yp with
    | none => (d1, .ok ())
    | some y =>
        match dictGet d1 "x" with
        | .error e => (d1, .error e)
        | .ok xv =>
            match check_ypred_h xv y with
            | .ok y2 => (dictSet d1 "ypred" (.df y2), .ok ())
            | .error e => (d1, .error e)
  match step2.2 with
  | .error e => (some step2.1, sk0, .error e)
  | .ok _ =>
  let r := ccCore cfg (some step2.1) sk0 copt
  match r.2.2 with
  | .error e => (r.1, r.2.1, .error e)
  | .ok pair =>
      match r.1 with
      | none => (none, r.2.1, .error (.attributeError "data"))
      | some d3 =>
          (some (dictSet (dictSet d3 "ypred" pair.1) "contributions" pair.2),
           r.2.1, .ok ())

/-- SmartPredictor.add_input as a method on the predictor state. -/
def add_input (cfg : Config) (s : PState) (x yp : Option DF) (copt : Option Contribs) :
    PState × Except Err Unit :=
  let r := aiCore cfg s.dataD s.stateKind x yp copt
  ({ s with dataD := r.1, stateKind := r.2.1 }, r.2.2)

/-- Core of SmartPredictor.filter (source lines 494-527), computing the
final mask and the per row masked contribution sums from the summary
attribute, the data dict and the mask parameters.  The base mask and the
sign filter read the ranked table from self.summary; the hide and
threshold filters fetch var_dict and contrib_sorted from self.data,
whose lookups are modelled by dictGet so that a missing key raises
KeyError exactly as the Python dict would.  Python evaluates the
arguments of a helper call before the call itself, so the dict lookups
happen, and fail, first. -/
def filterCore ( _cfg : Config) (summ0 : Option RankedS) (d0 : Option Dict)
    (mp : MaskParams) : Except Err (Mask × List ℚ) :=
  match summ0 with
  | none => .error (.attributeError "summary")
  | some summ =>
  let mask0 : List Mask := [init_mask summ.contrib_sorted]
  let hideStep : Except Err (List Mask) :=
    match mp.features_to_hide with
    | none => .ok mask0
    | some fl =>
        match d0 with
        | none => .error (.attributeError "data")
        | some d =>
            match dictGet d "var_dict" with
            | .error e => .error e
            | .ok v => (hide_contributions v fl).map (fun m => mask0 ++ [m])
  match hideStep with
  | .error e => .error e
  | .ok mask1 =>
  let capStep : Except Err (List Mask) :=
    match mp.threshold with
    | none => .ok mask1
    | some t =>
        match d0 with
        | none => .error (.attributeError "data")
        | some d =>
            match dictGet d "contrib_sorted" with
            | .error e => .error e
            | .ok v => (cap_contributions v t).map (fun m => mask1 ++ [m])
  match capStep with
  | .error e => .error e
  | .ok mask2 =>
  let mask3 : List Mask :=
    match mp.positive with
    | none => mask2
    | some b => mask2 ++ [sign_contributions summ.contrib_sorted b]
  let combined := combine_masks mask3
  let final :=
    match mp.max_contrib with
    | none => combined
    | some k => cutoff_contributions combined k
  .ok (final, compute_masked_contributions summ.contrib_sorted final)

/-- SmartPredictor.filter as a method on the predictor state: on success
self.mask and self.masked_contributions are stored, on failure the
raise leaves the attributes untouched (the source assigns self.mask only
after every filter mask was built). -/
def filter (cfg : Config) (s : PState) : PState × Except Err Unit :=
  match filterCore cfg s.summaryS s.dataD s.mask_params with
  | .error e => (s, .error e)
  | .ok r =>
      ({ s with maskM := some r.1, masked_contributions := some r.2 }, .ok ())

/-- SmartPredictor.summarize (source lines 529-577): rank the stored
contributions against the preprocessed table, store the result in
self.summary, run filter with the current mask_params, store the summary
table under the summary key of self.data, and return it next to the
stored prediction (the pandas concat is modelled as the returned
pair). -/
def summarize (cfg : Config) (s : PState) :
    PState × Except Err (DVal × SummaryTable) :=
  match s.dataD with
  | none => (s, .error (.orderError msgSummarizeOrder))
  | some d =>
  match dictGet d "contributions" with
  | .error e => (s, .error e)
  | .ok cv =>
  match dictGet d "x_preprocessed" with
  | .error e => (s, .error e)
  | .ok xpv =>
  match rank_contributions cv xpv with
  | .error e => (s, .error e)
  | .ok summ =>
  let s1 : PState := { s with summaryS := some summ }
  let fr := filter cfg s1
  match fr.2 with
  | .error e => (fr.1, .error e)
  | .ok _ =>
  match fr.1.maskM with
  | none => (fr.1, .error (.attributeError "mask"))
  | some m =>
      let tbl := summarizeT summ.contrib_sorted summ.var_dict summ.x_sorted m
        cfg.columns_dict cfg.features_dict
      let d2 := dictSet d "summary" (.stab tbl)
      match dictGet d2 "ypred" with
      | .error e => ({ fr.1 with dataD := some d2 }, .error e)
      | .ok ypv => ({ fr.1 with dataD := some d2 }, .ok (ypv, tbl))

/-- Conditional update of one mask parameter: the source overwrites the
entry only when the argument is not None. -/
def optUpd {α : Type} (new old : Option α) : Option α :=
  match new with
  | some v => some v
  | none => old

/-- SmartPredictor.modify_mask (source lines 579-608): every parameter
passed as not None overwrites the stored one, every parameter passed as
None keeps its previous value. -/
def modify_mask (s : PState) (features_to_hide : Option (List String))
    (threshold : Option ℚ) (positive : Option Bool) (max_contrib : Option Nat) :
    PState :=
  { s with mask_params :=
      { features_to_hide := optUpd features_to_hide s.mask_params.features_to_hide
        threshold := optUpd threshold s.mask_params.threshold
        positive := optUpd positive s.mask_params.positive
        max_contrib := optUpd max_contrib s.mask_params.max_contrib } }

/- ### Concrete fixtures for witnesses and counterexamples -/

/-- Empty mask parameters: every filter disabled. -/
def mp0 : MaskParams :=
  { features_to_hide := none, threshold := none, positive := none, max_contrib := none }

/-- A freshly constructed predictor: no data attribute, no state
strategy, no summary, no mask. -/
def freshP (mp : MaskParams) : PState :=
  { dataD := none, mask_params := mp, stateKind := none
    summaryS := none, maskM := none, masked_contributions := none }

/-- A one row raw dataset over the two declared features. -/
def X1 : DF := { cols := ["Age", "Sex"], dtypes := ["int", "int"], rows := [[1, 2]] }

/-- A two row raw dataset over the two declared features. -/
def X2 : DF := { cols := ["Age", "Sex"], dtypes := ["int", "int"], rows := [[3, 4], [5, 6]] }

/-- A concrete regression configuration without preprocessing. -/
def cfg0 : Config :=
  { case_ := "regression", classes := []
    columns_dict := [(0, "Age"), (1, "Sex")]
    features_types := [("Age", "int"), ("Sex", "int")]
    features_dict := [], label_dict := []
    preprocess := none
    invMapping := [("Age", ["Age"]), ("Sex", ["Sex"])]
    modelPredict := fun d => d.rows.map (fun _ => 0)
    modelProba := fun d => d.rows.map (fun _ => [1])
    explainerCompute := fun d => .single d }

/-- A preprocessing transform that succeeds on a one row dataset and
fails with an internal error on anything larger. -/
def pC1 : DF → Except String DF :=
  fun d => if d.rows.length ≤ 1 then .ok d else .error "transform failure"

/-- The regression configuration with the partially failing transform
pC1 installed. -/
def cfgC1 : Config := { cfg0 with preprocess := some pC1 }

/-- A predictor that has validated the one row bundle X1 under cfgC1:
add_input succeeded, so ypred, contributions and x_preprocessed are all
populated. -/
def sC1 : PState := (add_input cfgC1 (freshP mp0) (some X1) none none).1

/-- A predictor with a validated bundle under the plain regression
configuration cfg0 (used by the summarize and filter claims). -/
def sB : PState := (add_input cfg0 (freshP mp0) (some X1) none none).1

/-- A concrete binary classification configuration. -/
def cfgCls : Config :=
  { cfg0 with
    case_ := "classification"
    classes := [0, 1]
    modelProba := fun d => d.rows.map (fun _ => [0, 1])
    explainerCompute := fun d => .multi [dfNeg d, d] }

/-- A predictor with a validated bundle under the classification
configuration. -/
def sCls : PState := (add_input cfgCls (freshP mp0) (some X1) none none).1

/-- The data dict held by sB. -/
def dB : Dict := (sB.dataD).getD []

/-- Configuration for the dataset type enforcement claim: feature Sex is
declared float64 while the supplied dataset carries it as int64. -/
def cfgC6 : Config :=
  { cfg0 with
    columns_dict := [(0, "Age"), (1, "Sex")]
    features_types := [("Age", "int64"), ("Sex", "float64")] }

/-- A dataset whose Sex column has runtime dtype int64, contradicting
the declared float64, with columns supplied out of canonical order. -/
def xC6 : DF := { cols := ["Sex", "Age"], dtypes := ["int64", "int64"], rows := [[7, 30]] }

/-- Lookup into the data dict of a state, for stating frame properties. -/
def dget (s : PState) (k : String) : Except Err DVal :=
  match s.dataD with
  | none => .error (.attributeError "data")
  | some d => dictGet d k

/- ### Helper lemmas -/

theorem dictGet_dictSet_ne (d : Dict) (k k' : String) (v : DVal) (h : k' ≠ k) :
    dictGet (dictSet d k v) k' = dictGet d k' := by
  induction d with
  | nil => simp [dictSet, dictGet, h]
  | cons hd tl ih =>
    obtain ⟨k0, v0⟩ := hd
    by_cases hk : k = k0
    · subst hk
      simp [dictSet, dictGet, h]
    · simp [dictSet, dictGet, hk, ih]

/-- The dict component and the returned value of compute_contributions
do not depend on the incoming state strategy attribute; only the stored
strategy does. -/
theorem ccCore_sk (cfg : Config) (dd : Option Dict) (c : Option Contribs)
    (sk0 sk0' : Option StateKind) :
    (ccCore cfg dd sk0 c).1 = (ccCore cfg dd sk0' c).1 ∧
    (ccCore cfg dd sk0 c).2.2 = (ccCore cfg dd sk0' c).2.2 := by
  unfold ccCore
  dsimp only
  constructor <;> (repeat' split) <;> rfl

/-- The filter method never changes the data attribute. -/
theorem filter_dataD (cfg : Config) (s : PState) :
    (filter cfg s).1.dataD = s.dataD := by
  unfold filter
  split <;> rfl

/-- With a new x, add_input overwrites self.data with the cleared bundle
before anything reads the previous one, so the outcome does not depend
on the previous bundle, and the resulting dict does not either as soon
as the call got past the initial validation of x. -/
theorem aiCore_fresh (cfg : Config) (d0 d0' : Option Dict)
    (sk0 sk0' : Option StateKind) (x : DF) (yp : Option DF) (c : Option Contribs) :
    (aiCore cfg d0 sk0 (some x) yp c).2.2 = (aiCore cfg d0' sk0' (some x) yp c).2.2 ∧
    ((aiCore cfg d0 sk0 (some x) yp c).2.2 = .ok () →
      (aiCore cfg d0 sk0 (some x) yp c).1 = (aiCore cfg d0' sk0' (some x) yp c).1) := by
  unfold aiCore
  dsimp only
  cases hc : check_dataset_features cfg x with
  | error e => exact ⟨rfl, fun h => absurd h (by simp)⟩
  | ok x2 =>
    dsimp only
    cases hp : apply_preprocessing cfg x2 with
    | error e => exact ⟨rfl, fun h => absurd h (by simp)⟩
    | ok xp =>
      dsimp only
      cases yp with
      | some y =>
        dsimp only
        cases hg : dictGet (dictSet (clean_data x2) "x_preprocessed" (DVal.df xp)) "x" with
        | error e => exact ⟨rfl, fun h => absurd h (by simp)⟩
        | ok xv =>
          dsimp only
          cases hy : check_ypred_h xv y with
          | error e => exact ⟨rfl, fun h => absurd h (by simp)⟩
          | ok y2 =>
            dsimp only
            obtain ⟨e1, e2⟩ := ccCore_sk cfg
              (some (dictSet (dictSet (clean_data x2) "x_preprocessed" (DVal.df xp)) "ypred" (DVal.df y2)))
              c sk0 sk0'
            rw [e1, e2]
            cases hr : (ccCore cfg
                (some (dictSet (dictSet (clean_data x2) "x_preprocessed" (DVal.df xp)) "ypred" (DVal.df y2)))
                sk0' c).2.2 with
            | error e => exact ⟨rfl, fun h => absurd h (by simp)⟩
            | ok pair =>
              dsimp only
              cases hm : (ccCore cfg
                  (some (dictSet (dictSet (clean_data x2) "x_preprocessed" (DVal.df xp)) "ypred" (DVal.df y2)))
                  sk0' c).1 with
              | none => exact ⟨rfl, fun h => absurd h (by simp)⟩
              | some d3 => exact ⟨rfl, fun _ => rfl⟩
      | none =>
        dsimp only
        obtain ⟨e1, e2⟩ := ccCore_sk cfg
          (some (dictSet (clean_data x2) "x_preprocessed" (DVal.df xp))) c sk0 sk0'
        rw [e1, e2]
        cases hr : (ccCore cfg
            (some (dictSet (clean_data x2) "x_preprocessed" (DVal.df xp))) sk0' c).2.2 with
        | error e => exact ⟨rfl, fun h => absurd h (by simp)⟩
        | ok pair =>
          dsimp only
          cases hm : (ccCore cfg
              (some (dictSet (clean_data x2) "x_preprocessed" (DVal.df xp))) sk0' c).1 with
          | none => exact ⟨rfl, fun h => absurd h (by simp)⟩
          | some d3 => exact ⟨rfl, fun _ => rfl⟩

/-- Boolean characterisation of the conditional mask parameter update. -/
theorem optUpd_isSome {α : Type} (a b : Option α) :
    (optUpd a b).isSome = (a.isSome || b.isSome) := by
  cases a <;> simp [optUpd]

/- ### Claim theorems -/

/-- C2: call-order enforcement.  On a freshly constructed orchestrator,
whose data attribute does not exist because add_input was never called,
predict, compute_contributions, detail_contributions and summarize all
fail with an OrderError class failure (the source raises ValueError with
the add_input-first message at these guards) and return the state
unchanged, committing nothing. -/
theorem C2_call_order_enforced (cfg : Config) (s : PState) (c : Option Contribs)
    (h : s.dataD = none) :
    predict cfg s = (s, .error (.orderError msgAddInputFirst)) ∧
    compute_contributions cfg s c = (s, .error (.orderError msgAddInputFirst)) ∧
    detail_contributions cfg s c = (s, .error (.orderError msgAddInputFirst)) ∧
    summarize cfg s = (s, .error (.orderError msgSummarizeOrder)) := by
  obtain ⟨sd, mp, sk, su, mk, mc⟩ := s
  dsimp only at h
  subst h
  exact ⟨rfl, rfl, rfl, rfl⟩

/-- Witness for C2 at the concrete fresh predictor. -/
theorem C2_call_order_enforced_witness :
    (freshP mp0).dataD = none ∧
    (predict cfg0 (freshP mp0) = (freshP mp0, .error (.orderError msgAddInputFirst)) ∧
     compute_contributions cfg0 (freshP mp0) none =
       (freshP mp0, .error (.orderError msgAddInputFirst)) ∧
     detail_contributions cfg0 (freshP mp0) none =
       (freshP mp0, .error (.orderError msgAddInputFirst)) ∧
     summarize cfg0 (freshP mp0) = (freshP mp0, .error (.orderError msgSummarizeOrder))) :=
  ⟨rfl, C2_call_order_enforced cfg0 (freshP mp0) none rfl⟩

/-- C4: new-input reset.  A successful add_input with a new x produces
exactly the bundle that a freshly constructed orchestrator would build
for that x, so every previously stored ypred, contribution and
preprocessed entry is discarded and any subsequent computation starts
from scratch against the new x. -/
theorem C4_new_input_reset (cfg : Config) (s : PState) (x : DF)
    (h : (add_input cfg s (some x) none none).2 = .ok ()) :
    (add_input cfg (freshP s.mask_params) (some x) none none).2 = .ok () ∧
    (add_input cfg s (some x) none none).1.dataD =
      (add_input cfg (freshP s.mask_params) (some x) none none).1.dataD := by
  obtain ⟨e1, e2⟩ := aiCore_fresh cfg s.dataD none s.stateKind none x none none
  have hs : (add_input cfg s (some x) none none).2
      = (aiCore cfg s.dataD s.stateKind (some x) none none).2.2 := rfl
  have hfresh : (add_input cfg (freshP s.mask_params) (some x) none none).2
      = (aiCore cfg none none (some x) none none).2.2 := rfl
  refine ⟨?_, ?_⟩
  · rw [hfresh, ← e1, ← hs]
    exact h
  · exact e2 (by rw [← hs]; exact h)

/-- Witness for C4: a predictor holding the bundle of X1 receives X2. -/
theorem C4_new_input_reset_witness :
    (add_input cfg0 sB (some X2) none none).2 = .ok () ∧
    ((add_input cfg0 (freshP sB.mask_params) (some X2) none none).2 = .ok () ∧
     (add_input cfg0 sB (some X2) none none).1.dataD =
       (add_input cfg0 (freshP sB.mask_params) (some X2) none none).1.dataD) :=
  ⟨by decide, C4_new_input_reset cfg0 sB X2 (by decide)⟩

/-- C1 counterexample: sC1 holds the previously validated bundle of X1
with a stored prediction; add_input with the new X2 fails in
preprocessing, yet the stored bundle is not left as it was: the dict
changed and the old ypred entry is gone (reset to None). -/
theorem C1_atomicity_counterexample :
    dget sC1 "ypred" =
      .ok (DVal.df { cols := ["ypred"], dtypes := ["float"], rows := [[0]] }) ∧
    (add_input cfgC1 sC1 (some X2) none none).2 = .error (.configError msgPreprocFail) ∧
    (add_input cfgC1 sC1 (some X2) none none).1.dataD ≠ sC1.dataD ∧
    dget (add_input cfgC1 sC1 (some X2) none none).1 "ypred" = .ok DVal.none := by
  exact ⟨by decide, by decide, by decide, by decide⟩

/-- C1 (amended): when the preprocessing of a new x fails, add_input
raises the ConfigError and the stored bundle is the freshly cleared
bundle for the new x (checked x stored, ypred, contributions and
x_preprocessed reset to None); the previous bundle is discarded, not
preserved. -/
theorem C1_failed_add_input_clears (cfg : Config) (s : PState) (x x2 : DF)
    (yp : Option DF) (c : Option Contribs) (p : DF → Except String DF) (e : String)
    (hp : cfg.preprocess = some p)
    (hchk : check_dataset_features cfg x = .ok x2)
    (hfail : p x2 = .error e) :
    add_input cfg s (some x) yp c =
      ({ s with dataD := some (clean_data x2) }, .error (.configError msgPreprocFail)) := by
  unfold add_input aiCore
  dsimp only
  rw [hchk]
  dsimp only
  unfold apply_preprocessing
  rw [hp]
  dsimp only
  rw [hfail]

/-- Witness for the amended C1 at the concrete failing transform. -/
theorem C1_failed_add_input_clears_witness :
    cfgC1.preprocess = some pC1 ∧
    check_dataset_features cfgC1 X2 = .ok X2 ∧
    pC1 X2 = .error "transform failure" ∧
    add_input cfgC1 sC1 (some X2) none none =
      ({ sC1 with dataD := some (clean_data X2) }, .error (.configError msgPreprocFail)) :=
  ⟨rfl, by decide, by decide,
   C1_failed_add_input_clears cfgC1 sC1 X2 X2 none none pC1 "transform failure"
     rfl (by decide) (by decide)⟩

/-- C7: any internal failure of the preprocessing transform during
add_input with a new x is caught and re-raised as the single descriptive
ConfigError naming the preprocessing-dataset mismatch; the transform
internal error is not propagated, and the failure is never silently
swallowed. -/
theorem C7_preprocessing_failure_translated (cfg : Config) (s : PState) (x x2 : DF)
    (yp : Option DF) (c : Option Contribs) (p : DF → Except String DF) (e : String)
    (hp : cfg.preprocess = some p)
    (hchk : check_dataset_features cfg x = .ok x2)
    (hfail : p x2 = .error e) :
    (add_input cfg s (some x) yp c).2 = .error (.configError msgPreprocFail) ∧
    (add_input cfg s (some x) yp c).2 ≠ .ok () := by
  have hall : (add_input cfg s (some x) yp c).2 = .error (.configError msgPreprocFail) := by
    unfold add_input aiCore
    dsimp only
    rw [hchk]
    dsimp only
    unfold apply_preprocessing
    rw [hp]
    dsimp only
    rw [hfail]
  exact ⟨hall, by rw [hall]; exact fun hh => by cases hh⟩

/-- Witness for C7 at the concrete failing transform. -/
theorem C7_preprocessing_failure_translated_witness :
    cfgC1.preprocess = some pC1 ∧
    check_dataset_features cfgC1 X2 = .ok X2 ∧
    pC1 X2 = .error "transform failure" ∧
    ((add_input cfgC1 sC1 (some X2) none none).2 = .error (.configError msgPreprocFail) ∧
     (add_input cfgC1 sC1 (some X2) none none).2 ≠ .ok ()) :=
  ⟨rfl, by decide, by decide,
   C7_preprocessing_failure_translated cfgC1 sC1 X2 X2 none none pC1 "transform failure"
     rfl (by decide) (by decide)⟩

/-- C3: threshold filter boundary.  With only the threshold filter
active, summarize does not build the boundary inclusive mask: the source
fetches contrib_sorted from self.data, which only holds the x, ypred,
contributions and x_preprocessed entries, so the call fails with a
KeyError on contrib_sorted.  The threshold helper itself (modelled from
the spec) does keep a contribution whose magnitude equals the threshold
exactly. -/
theorem C3_threshold_filter_keyerror :
    (summarize cfg0 (modify_mask sB none (some 1) none none)).2 =
      .error (.keyError "contrib_sorted") ∧
    (modify_mask sB none (some 1) none none).mask_params.threshold = some 1 ∧
    cap_contributions
      (DVal.df { cols := ["c0", "c1"], dtypes := ["float", "float"], rows := [[1, 0]] })
      1 = .ok [[true, false]] := by
  exact ⟨by decide, by decide, by decide⟩

/-- C6: dataset type enforcement.  The Sex column is declared float64
but supplied with runtime dtype int64; check_dataset_features
nevertheless accepts the dataset and reorders it into the canonical
column order, because both dtype guards in the source test the
truthiness of a generator expression and can never raise. -/
theorem C6_dtype_check_never_fires :
    List.lookup "Sex" cfgC6.features_types = some "float64" ∧
    xC6.dtypes = ["int64", "int64"] ∧
    check_dataset_features cfgC6 xC6 =
      .ok { cols := ["Age", "Sex"], dtypes := ["int64", "int64"], rows := [[30, 7]] } := by
  exact ⟨by decide, rfl, by decide⟩

/-- C9: mask combination.  With the hide filter active (alone or in any
pair of active filters) the source fails with a KeyError on var_dict
fetched from self.data before any mask is combined; with no active
filter the code path does produce the all True combined mask, and the
combination helper (modelled from the spec) is the elementwise AND with
the always True base as neutral element: masks keeping the first two and
the last two of three columns combine to keep exactly the middle one. -/
theorem C9_mask_combination :
    (summarize cfg0 (modify_mask sB (some ["Age"]) none (some true) none)).2 =
      .error (.keyError "var_dict") ∧
    (summarize cfg0 sB).1.maskM = some [[true, true]] ∧
    combine_masks [[[true, true, false]], [[false, true, true]]] = [[false, true, false]] ∧
    combine_masks [[[true, true, true]]] = [[true, true, true]] := by
  exact ⟨by decide, by decide, by decide, by decide⟩

/-- C5: classification single-table adaptation.  In the classification
case a single contribution table is converted into the two element
sequence of its negation and itself before validation, so that
compute_contributions behaves identically on the single table and on the
explicit pair; in the regression case the adaptation is the identity. -/
theorem C5_single_table_adaptation (cfg : Config) (s : PState) (C : DF)
    (h : cfg.case_ = "classification") :
    compute_contributions cfg s (some (.single C)) =
      compute_contributions cfg s (some (.multi [dfNeg C, C])) ∧
    adapt_contributions cfg.case_ (.single C) = .multi [dfNeg C, C] ∧
    (∀ c : Contribs, adapt_contributions "regression" c = c) := by
  have hadapt : adapt_contributions cfg.case_ (Contribs.single C)
      = adapt_contributions cfg.case_ (Contribs.multi [dfNeg C, C]) := by
    simp [adapt_contributions, h]
  refine ⟨?_, by simp [adapt_contributions, h], ?_⟩
  · unfold compute_contributions ccCore
    dsimp only
    rw [hadapt]
  · intro c
    cases c with
    | single d =>
        simp only [adapt_contributions]
        rw [if_neg (by decide)]
    | multi l => rfl

/-- Witness for C5 at the concrete binary classification predictor. -/
theorem C5_single_table_adaptation_witness :
    cfgCls.case_ = "classification" ∧
    (compute_contributions cfgCls sCls (some (.single X1)) =
       compute_contributions cfgCls sCls (some (.multi [dfNeg X1, X1])) ∧
     adapt_contributions cfgCls.case_ (.single X1) = .multi [dfNeg X1, X1] ∧
     (∀ c : Contribs, adapt_contributions "regression" c = c)) :=
  ⟨rfl, C5_single_table_adaptation cfgCls sCls X1 rfl⟩

/-- C10: modify_mask overwrites exactly the parameters passed as some
value (an explicit value overwrites, an omitted parameter keeps the
stored value), and a parameter once set to a value can never be returned
to None through modify_mask, as the isSome equations show. -/
theorem C10_modify_mask_update_only (s : PState) (f : Option (List String))
    (t : Option ℚ) (p : Option Bool) (m : Option Nat) :
    (modify_mask s f t p m).mask_params.features_to_hide
      = optUpd f s.mask_params.features_to_hide ∧
    (modify_mask s f t p m).mask_params.threshold = optUpd t s.mask_params.threshold ∧
    (modify_mask s f t p m).mask_params.positive = optUpd p s.mask_params.positive ∧
    (modify_mask s f t p m).mask_params.max_contrib = optUpd m s.mask_params.max_contrib ∧
    (∀ v : ℚ, optUpd (some v) s.mask_params.threshold = some v) ∧
    optUpd (none : Option ℚ) s.mask_params.threshold = s.mask_params.threshold ∧
    (modify_mask s f t p m).mask_params.features_to_hide.isSome
      = (f.isSome || s.mask_params.features_to_hide.isSome) ∧
    (modify_mask s f t p m).mask_params.threshold.isSome
      = (t.isSome || s.mask_params.threshold.isSome) ∧
    (modify_mask s f t p m).mask_params.positive.isSome
      = (p.isSome || s.mask_params.positive.isSome) ∧
    (modify_mask s f t p m).mask_params.max_contrib.isSome
      = (m.isSome || s.mask_params.max_contrib.isSome) :=
  ⟨rfl, rfl, rfl, rfl, fun _ => rfl, rfl,
   optUpd_isSome f s.mask_params.features_to_hide,
   optUpd_isSome t s.mask_params.threshold,
   optUpd_isSome p s.mask_params.positive,
   optUpd_isSome m s.mask_params.max_contrib⟩

/-- C8: summary derivation has no side effects on the bundle.  For a
predictor holding a bundle, summarize (and the filter it invokes) leaves
every entry of the data dict other than the derived summary entry
unchanged — in particular x, ypred, contributions and x_preprocessed —
modify_mask does not touch the bundle either, and the value returned by
summarize is a function of the current bundle and the current mask
parameters alone, so it can be recomputed any number of times, with
modify_mask calls in between, without re-running prediction or
contribution computation. -/
theorem C8_summarize_no_side_effects (cfg : Config) (s : PState) (d : Dict)
    (f : Option (List String)) (t : Option ℚ) (p : Option Bool) (m : Option Nat)
    (h : s.dataD = some d) :
    (∀ k, k ≠ "summary" → dget (summarize cfg s).1 k = dictGet d k) ∧
    (modify_mask s f t p m).dataD = s.dataD ∧
    (∀ s2 : PState, s2.dataD = s.dataD → s2.mask_params = s.mask_params →
      (summarize cfg s2).2 = (summarize cfg s).2) := by
  refine ⟨?_, rfl, ?_⟩
  · intro k hk
    unfold summarize filter
    rw [h]
    dsimp only
    cases hcv : dictGet d "contributions" with
    | error e => simp [dget, h]
    | ok cv =>
      dsimp only
      cases hxp : dictGet d "x_preprocessed" with
      | error e => simp [dget, h]
      | ok xpv =>
        dsimp only
        cases hrk : rank_contributions cv xpv with
        | error e => simp [dget, h]
        | ok summ =>
          dsimp only
          cases hfc : filterCore cfg (some summ) (some d) s.mask_params with
          | error e => simp [dget, h]
          | ok r =>
            dsimp only
            split <;> simp [dget, dictGet_dictSet_ne _ _ _ _ hk]
  · intro s2 hd2 hm2
    unfold summarize filter
    rw [hd2, hm2, h]
    dsimp only
    cases hcv : dictGet d "contributions" with
    | error e => rfl
    | ok cv =>
      dsimp only
      cases hxp : dictGet d "x_preprocessed" with
      | error e => rfl
      | ok xpv =>
        dsimp only
        cases hrk : rank_contributions cv xpv with
        | error e => rfl
        | ok summ =>
          dsimp only
          cases hfc : filterCore cfg (some summ) (some d) s.mask_params with
          | error e => rfl
          | ok r =>
            dsimp only
            split <;> rfl

/-- Witness for C8 at the concrete regression predictor. -/
theorem C8_summarize_no_side_effects_witness :
    sB.dataD = some dB ∧
    ((∀ k, k ≠ "summary" → dget (summarize cfg0 sB).1 k = dictGet dB k) ∧
     (modify_mask sB none (some 1) none none).dataD = sB.dataD ∧
     (∀ s2 : PState, s2.dataD = sB.dataD → s2.mask_params = sB.mask_params →
       (summarize cfg0 s2).2 = (summarize cfg0 sB).2)) :=
  ⟨by decide,
   C8_summarize_no_side_effects cfg0 sB dB none (some 1) none none (by decide)⟩

end Shapash
